import Mathlib

/-!
# Smart_WMS_FE — verification of the resilient request layer

Shallow embedding of the browser-side gateway client of the Smart_WMS_FE
repository (`src/lib/api.ts`, bearer-token variant, and the session+CSRF
variant of the same module).  Pure transformation logic is translated to
Lean functions; the HTTP transport, the wall clock and locale formatting
are passed in explicitly as parameters, and fallible operations return
`Except`/`Option` values together with the list of network calls they
issue, so that ordering and fail-fast behaviour are provable.
-/

namespace WMS

/-- Equality of `Except` results is decidable when it is on both sides. -/
instance {ε α : Type} [DecidableEq ε] [DecidableEq α] : DecidableEq (Except ε α) := fun x y =>
  match x, y with
  | Except.ok a, Except.ok b =>
      if h : a = b then Decidable.isTrue (congrArg Except.ok h)
      else Decidable.isFalse (fun e => h (Except.ok.inj e))
  | Except.error a, Except.error b =>
      if h : a = b then Decidable.isTrue (congrArg Except.error h)
      else Decidable.isFalse (fun e => h (Except.error.inj e))
  | Except.ok _, Except.error _ => Decidable.isFalse (fun e => Except.noConfusion e)
  | Except.error _, Except.ok _ => Decidable.isFalse (fun e => Except.noConfusion e)

/-- JavaScript string truthiness fallback `s || d`: the empty string is the
only falsy string value, every other string is returned unchanged. -/
def jsOr (s d : String) : String := if s = "" then d else s

/-- Model of JavaScript `Number(s)` restricted to the strings that arise as
identifier segments in this code base: the empty string converts to `0`,
a non-empty string of decimal digits converts to that integer, and every
other string is mapped to `none`, standing for `NaN`.  (Signed, fractional,
exponent, hexadecimal and whitespace forms do not occur in the claims and
are not modelled.) -/
def jsNumber (s : String) : Option Int :=
  if s = "" then some 0
  else if s.data.all (fun c => c.isDigit) then
    some (Int.ofNat (s.data.foldl (fun n c => n * 10 + (c.toNat - '0'.toNat)) 0))
  else none

/-- HTTP verbs used by the client. -/
inductive Method where
  | GET | HEAD | OPTIONS | POST | PUT | PATCH | DELETE
deriving DecidableEq, Repr

/-- Upper-case name of a verb, as produced by `method.toUpperCase()`. -/
def methodName : Method → String
  | .GET => "GET" | .HEAD => "HEAD" | .OPTIONS => "OPTIONS"
  | .POST => "POST" | .PUT => "PUT" | .PATCH => "PATCH" | .DELETE => "DELETE"

/-- `isSafeMethod` from the session-variant client:
`['GET', 'HEAD', 'OPTIONS'].includes((m || 'GET').toUpperCase())` (the
`undefined → 'GET'` default is outside this `Method` model). -/
def isSafeMethod (m : Method) : Bool :=
  ["GET", "HEAD", "OPTIONS"].contains (methodName m)

/-- Query-parameter values: strings, or the number produced by `Date.now()`. -/
inductive PVal where
  | str (s : String)
  | num (n : Nat)
deriving DecidableEq, Repr

/-- An axios request configuration, as observed by the interceptors. -/
structure ReqConfig where
  method : Method
  url : String
  params : List (String × PVal)
  headers : List (String × String)
  body : String
  retriedOnce : Bool
deriving DecidableEq, Repr

/-- `config.params = { ...(config.params || {}), _t: Date.now() }` —
object-spread update, modelled on association lists up to key order:
any previous `_t` entry is overwritten, all other entries are kept. -/
def withCacheBust (ps : List (String × PVal)) (now : Nat) : List (String × PVal) :=
  ps.filter (fun p => p.1 != "_t") ++ [("_t", PVal.num now)]

/-- `{ ...headers, k: v }` — overwrite one header, keep the rest. -/
def setHeader (hs : List (String × String)) (k v : String) : List (String × String) :=
  hs.filter (fun p => p.1 != k) ++ [(k, v)]

theorem lookup_withCacheBust (ps : List (String × PVal)) (now : Nat) :
    (withCacheBust ps now).lookup "_t" = some (PVal.num now) := by
  induction ps with
  | nil => rfl
  | cons p t ih =>
      by_cases h : p.1 = "_t"
      · simpa [withCacheBust, List.filter, h] using ih
      · simp only [withCacheBust, List.filter] at ih ⊢
        rw [show (p.1 != "_t") = true by simpa using h]
        simpa [List.lookup, show ("_t" == p.1) = false by simpa using fun e => h e.symm] using ih

theorem lookup_setHeader (hs : List (String × String)) (k v : String) :
    (setHeader hs k v).lookup k = some v := by
  induction hs with
  | nil => simp [setHeader, List.lookup]
  | cons p t ih =>
      by_cases h : p.1 = k
      · simpa [setHeader, List.filter, h] using ih
      · simp only [setHeader, List.filter] at ih ⊢
        rw [show (p.1 != k) = true by simpa using h]
        simpa [List.lookup, show (k == p.1) = false by simpa using fun e => h e.symm] using ih

/-- Cache-busting preserves every query parameter other than `_t`. -/
theorem filter_withCacheBust (ps : List (String × PVal)) (now : Nat) :
    (withCacheBust ps now).filter (fun p => p.1 != "_t")
      = ps.filter (fun p => p.1 != "_t") := by
  simp [withCacheBust, List.filter_append, List.filter_filter]

/-! ## Session variant: CSRF token acquisition (`fetchCsrfToken`) -/

/-- Outcome of one raw `fetch` round trip: `netErr` stands for the fetch
promise rejecting (network failure) or the body failing to parse as JSON;
`resp ok token` stands for a completed response with `ok = r.ok` and
`token = j.token` (`none` when the field is absent). -/
inductive FetchOutcome where
  | netErr
  | resp (ok : Bool) (token : Option String)
deriving DecidableEq, Repr

/-- The two token endpoints consulted by `fetchCsrfToken`: the outcome of
`GET /api/csrf` and of `GET /csrf`. -/
structure CsrfEnv where
  primary : FetchOutcome
  secondary : FetchOutcome
deriving DecidableEq, Repr

/-- A raw `fetch(path, { credentials: 'include' })` call: no headers are
passed, in particular no CSRF header, so acquisition bypasses injection. -/
structure RawCall where
  path : String
  headers : List (String × String)
deriving DecidableEq, Repr

/-- Errors raised by token acquisition: `tokenUnavailable` is the
`throw new Error('CSRF token endpoint not reachable')` branch; `network`
stands for the rejection of the secondary `fetch` itself propagating. -/
inductive CsrfError where
  | tokenUnavailable
  | network
deriving DecidableEq, Repr

/-- The usable token carried by a fetch outcome: the `if (r.ok) { const j =
await r.json(); if (j?.token) return j.token; }` test.  JavaScript
truthiness makes the empty string unusable. -/
def respToken : FetchOutcome → Option String
  | .netErr => none
  | .resp ok tok =>
      if ok then
        match tok with
        | some t => if t = "" then none else some t
        | none => none
      else none

/-- `fetchCsrfToken`: try `GET /api/csrf` (all failures swallowed); if it
yields no usable token, `GET /csrf`; a rejection of that second fetch
propagates as-is, and a completed second response without a usable token
raises the distinct token-unavailable error.  Returns the result together
with the raw fetch calls issued, in order. -/
def fetchCsrfToken (env : CsrfEnv) : Except CsrfError String × List RawCall :=
  match respToken env.primary with
  | some t => (Except.ok t, [⟨"/api/csrf", []⟩])
  | none =>
      match env.secondary with
      | .netErr => (Except.error CsrfError.network, [⟨"/api/csrf", []⟩, ⟨"/csrf", []⟩])
      | .resp _ _ =>
          match respToken env.secondary with
          | some t => (Except.ok t, [⟨"/api/csrf", []⟩, ⟨"/csrf", []⟩])
          | none =>
              (Except.error CsrfError.tokenUnavailable, [⟨"/api/csrf", []⟩, ⟨"/csrf", []⟩])

/-! ## Session variant: request interceptor -/

/-- What the session-variant request interceptor produced: the prepared
config, the token cache (`CSRF_TOKEN`) afterwards, how many token
acquisition round trips (`fetchCsrfToken` invocations) happened, and the
raw fetch calls those acquisitions issued. -/
structure PrepResult where
  config : ReqConfig
  cache : Option String
  acquisitions : Nat
  acquisitionCalls : List RawCall
deriving DecidableEq, Repr

/-- The session-variant request interceptor: add the `_t` cache-busting
parameter; for non-safe verbs, acquire a CSRF token when none is cached
(a failure of that acquisition rejects the request before it is sent) and
attach it as the `X-CSRF-TOKEN` header. -/
def requestInterceptorS (cfg : ReqConfig) (cache : Option String) (env : CsrfEnv)
    (now : Nat) : Except CsrfError PrepResult :=
  let cfg1 : ReqConfig := { cfg with params := withCacheBust cfg.params now }
  if isSafeMethod cfg.method then
    Except.ok ⟨cfg1, cache, 0, []⟩
  else
    match cache with
    | some t =>
        Except.ok ⟨{ cfg1 with headers := setHeader cfg1.headers "X-CSRF-TOKEN" t },
          some t, 0, []⟩
    | none =>
        match fetchCsrfToken env with
        | (Except.ok t, calls) =>
            Except.ok ⟨{ cfg1 with headers := setHeader cfg1.headers "X-CSRF-TOKEN" t },
              some t, 1, calls⟩
        | (Except.error e, _) => Except.error e

/-! ## Bearer variant: request interceptor (`src/lib/api.ts`) -/

/-- The bearer-variant request interceptor: attach `Authorization: Bearer
<token>` when a token is present in persistent storage, then add the `_t`
cache-busting parameter. -/
def requestInterceptorBearer (cfg : ReqConfig) (storedToken : Option String)
    (now : Nat) : ReqConfig :=
  let cfg1 : ReqConfig :=
    match storedToken with
    | some t => { cfg with headers := setHeader cfg.headers "Authorization" ("Bearer " ++ t) }
    | none => cfg
  { cfg1 with params := withCacheBust cfg1.params now }

/-! ## Session variant: response interceptor and end-to-end request run -/

/-- Transport outcome of one transmitted request: a 2xx response with a
body, an error response carrying an HTTP status (`error.response.status`),
or a network failure without any response (`error.response` undefined). -/
inductive NetResp where
  | ok (body : String)
  | httpErr (status : Nat)
  | netFail
deriving DecidableEq, Repr

/-- Failure as seen by the caller of a resource accessor. -/
inductive RunErr where
  | csrf (e : CsrfError)
  | http (status : Nat)
  | network
deriving DecidableEq, Repr

/-- What a full request run did: the final result, the requests actually
transmitted in order, the number of `fetchCsrfToken` invocations performed
by the response interceptor's recovery path, and the token cache
afterwards. -/
structure RunOutcome where
  result : Except RunErr String
  sent : List ReqConfig
  recoveryAcquisitions : Nat
  finalCache : Option String
deriving DecidableEq, Repr

/-- How an error-free transport outcome propagates once no retry applies. -/
def propagateResp : NetResp → Except RunErr String
  | .ok b => Except.ok b
  | .httpErr s => Except.error (RunErr.http s)
  | .netFail => Except.error RunErr.network

/-- End-to-end run of one logical request through the session-variant
client: the request interceptor prepares the request (`envInit` is the
token-endpoint behaviour seen by a lazy first acquisition, `now1` the
`Date.now()` sample), the transport answers attempt `i` with `respond i`,
and on a 403 answer to a first-attempt mutating request the response
interceptor clears the cache, re-acquires a token against `envRetry`,
marks the request retried and re-issues it once (the re-issued request
passes the request interceptor again with the fresh token cached and the
`Date.now()` sample `now2`); every other failure propagates unchanged. -/
def runRequest (cfg : ReqConfig) (cache0 : Option String) (envInit envRetry : CsrfEnv)
    (respond : Nat → NetResp) (now1 now2 : Nat) : RunOutcome :=
  match requestInterceptorS cfg cache0 envInit now1 with
  | Except.error e => ⟨Except.error (RunErr.csrf e), [], 0, cache0⟩
  | Except.ok prep =>
      match respond 0 with
      | NetResp.ok b => ⟨Except.ok b, [prep.config], 0, prep.cache⟩
      | NetResp.netFail => ⟨Except.error RunErr.network, [prep.config], 0, prep.cache⟩
      | NetResp.httpErr s =>
          if s = 403 ∧ ¬cfg.retriedOnce ∧ ¬isSafeMethod cfg.method then
            match fetchCsrfToken envRetry with
            | (Except.error _, _) =>
                ⟨Except.error (RunErr.http s), [prep.config], 1, none⟩
            | (Except.ok t2, _) =>
                ⟨propagateResp (respond 1),
                  [prep.config,
                    { prep.config with
                        retriedOnce := true
                        params := withCacheBust prep.config.params now2
                        headers := setHeader prep.config.headers "X-CSRF-TOKEN" t2 }],
                  1, some t2⟩
          else
            ⟨Except.error (RunErr.http s), [prep.config], 0, prep.cache⟩

/-- The re-issued request as it leaves the client on the retry path. -/
def retriedConfig (sent1 : ReqConfig) (t2 : String) (now2 : Nat) : ReqConfig :=
  { sent1 with
      retriedOnce := true
      params := withCacheBust sent1.params now2
      headers := setHeader sent1.headers "X-CSRF-TOKEN" t2 }

/-! ## Composite identifier resolution and order operations -/

/-- `s.split('-')[0]`: the segment of `s` before its first `'-'` (the whole
string when no `'-'` occurs, the empty string for the empty input). -/
def leadingSegment (s : String) : String :=
  String.mk (s.data.takeWhile (fun c => c ≠ '-'))

/-- The identifier preprocessing of `updateInOutRecord`:
`id.includes('-') ? id.split('-')[0] : id`. -/
def updateInOutParse (id : String) : String :=
  if id.contains '-' then leadingSegment id else id

/-- Both spellings of the leading-segment extraction agree: when the string
contains no `'-'`, `takeWhile` returns it whole. -/
theorem updateInOutParse_eq_leadingSegment (id : String) :
    updateInOutParse id = leadingSegment id := by
  unfold updateInOutParse
  by_cases h : id.contains '-'
  · simp [h]
  · rw [if_neg (by simpa using h)]
    rw [String.contains_iff] at h
    unfold leadingSegment
    conv_lhs => rw [show id = String.mk id.data from rfl]
    congr 1
    exact (List.takeWhile_eq_self_iff.mpr (fun c hc => by
      simp only [decide_eq_true_eq]
      exact fun e => h (e ▸ hc))).symm

/-- One HTTP call issued by an order operation (bodies are not modelled:
no claim concerns them). -/
structure Call where
  verb : Method
  path : String
deriving DecidableEq, Repr

/-- Synchronous validation failure of an order operation. -/
inductive IdError where
  | invalidOrderId
deriving DecidableEq, Repr

/-- `updateOrderStatus(orderId, status)`: convert the leading segment of
the composite identifier with `Number`; reject with the invalid-identifier
error when that is `NaN`, otherwise issue `PUT
/api/inout/orders/<id>/status`.  Returns the network calls issued. -/
def updateOrderStatus (orderId : String) : Except IdError (List Call) :=
  match jsNumber (leadingSegment orderId) with
  | none => Except.error IdError.invalidOrderId
  | some n =>
      Except.ok [⟨Method.PUT, "/api/inout/orders/" ++ toString n ++ "/status"⟩]

/-- `cancelInOutOrder(orderId)` for a string identifier: same parse, then
`PUT /api/inout/orders/<id>/cancel`.  (The numeric overload of the source
takes `Number(orderId)` directly and is not addressed by a composite
identifier.) -/
def cancelInOutOrder (orderId : String) : Except IdError (List Call) :=
  match jsNumber (leadingSegment orderId) with
  | none => Except.error IdError.invalidOrderId
  | some n =>
      Except.ok [⟨Method.PUT, "/api/inout/orders/" ++ toString n ++ "/cancel"⟩]

/-! ## Verb-fallback updater (`updateInOutRecord`) -/

/-- Failure of `updateInOutRecord` as seen by its caller. -/
inductive UpdateErr where
  | invalidId
  | http (status : Nat)
  | network
deriving DecidableEq, Repr

/-- Result of `updateInOutRecord`: outcome plus the network calls issued,
in order. -/
structure UpdateResult where
  result : Except UpdateErr String
  calls : List Call
deriving DecidableEq, Repr

/-- `updateInOutRecord(id, data)` against a transport oracle `net`:
parse the identifier; `PUT` to the `/status` sub-resource; on a 405 answer
`PATCH` the base path; on another 405 `PUT` the base path; any outcome
other than 405 (success, other HTTP error, or network failure without a
response, whose `error.response?.status` is undefined) ends the probing
immediately. -/
def updateInOutRecord (id : String) (net : Call → NetResp) : UpdateResult :=
  match jsNumber (updateInOutParse id) with
  | none => ⟨Except.error UpdateErr.invalidId, []⟩
  | some n =>
      let base := "/api/inout/orders/" ++ toString n
      let c1 : Call := ⟨Method.PUT, base ++ "/status"⟩
      match net c1 with
      | NetResp.ok b => ⟨Except.ok b, [c1]⟩
      | NetResp.netFail => ⟨Except.error UpdateErr.network, [c1]⟩
      | NetResp.httpErr s =>
          if s = 405 then
            let c2 : Call := ⟨Method.PATCH, base⟩
            match net c2 with
            | NetResp.ok b => ⟨Except.ok b, [c1, c2]⟩
            | NetResp.netFail => ⟨Except.error UpdateErr.network, [c1, c2]⟩
            | NetResp.httpErr s2 =>
                if s2 = 405 then
                  let c3 : Call := ⟨Method.PUT, base⟩
                  match net c3 with
                  | NetResp.ok b => ⟨Except.ok b, [c1, c2, c3]⟩
                  | NetResp.netFail => ⟨Except.error UpdateErr.network, [c1, c2, c3]⟩
                  | NetResp.httpErr s3 => ⟨Except.error (UpdateErr.http s3), [c1, c2, c3]⟩
                else ⟨Except.error (UpdateErr.http s2), [c1, c2]⟩
          else ⟨Except.error (UpdateErr.http s), [c1]⟩

/-! ## Inventory (`fetchInventoryData`) -/

/-- One entry of the backend `/api/inventory` payload (`BackendInventoryResponse`).
Quantities are modelled as integers. -/
structure BackendInventoryResponse where
  itemId : Int
  itemName : String
  locationCode : String
  quantity : Int
  lastUpdated : String
deriving DecidableEq, Repr

/-- One frontend inventory row (`InventoryItem`). -/
structure InventoryItem where
  id : Nat
  name : String
  sku : String
  specification : String
  quantity : Int
  inboundScheduled : Int
  outboundScheduled : Int
  location : String
  status : String
  lastUpdate : String
deriving DecidableEq, Repr

/-- The qualitative status label derived from a quantity:
`let status = '정상'; if (q <= 0) status = '위험'; else if (q <= 10) status = '부족';` -/
def inventoryStatus (q : Int) : String :=
  if q ≤ 0 then "위험" else if q ≤ 10 then "부족" else "정상"

/-- `fetchInventoryData`, identical in both client variants: an empty (or
missing) backend payload yields `[]`; otherwise every backend entry is
mapped, with index, to a display row.  `fmt` stands for
`s ↦ new Date(s).toLocaleString('ko-KR')`, locale formatting being outside
this model. -/
def fetchInventoryData (fmt : String → String)
    (backendData : List BackendInventoryResponse) : List InventoryItem :=
  if backendData.isEmpty then []
  else
    backendData.enum.map (fun p =>
      { id := p.1 + 1
        name := p.2.itemName
        sku := "SKU-" ++ toString p.2.itemId
        specification := "N/A"
        quantity := p.2.quantity
        inboundScheduled := 0
        outboundScheduled := 0
        location := p.2.locationCode
        status := inventoryStatus p.2.quantity
        lastUpdate := fmt p.2.lastUpdated })

/-! ## In/out records (`fetchInOutData`) -/

/-- One line item of an order payload (`InOutOrderItemResponse`). -/
structure OrderItem where
  itemId : Int
  itemCode : String
  itemName : String
  specification : String
  requestedQuantity : Int
  actualQuantity : Option Int
deriving DecidableEq, Repr

/-- One raw order as returned by `GET /api/inout/orders`
(`fetchRawInOutData` types it `any[]`; these are the fields the transform
reads).  String fields use `""` where the backend could send a missing or
empty value (both are falsy in JavaScript). -/
structure RawOrder where
  orderId : Int
  type : String
  status : String
  companyName : String
  companyCode : String
  createdAt : String
  updatedAt : String
  items : List OrderItem
deriving DecidableEq, Repr

/-- One flattened display record (`InOutRecord`). -/
structure InOutRecord where
  id : String
  type : String
  productName : String
  sku : String
  individualCode : String
  specification : String
  quantity : Int
  location : String
  company : String
  companyCode : String
  status : String
  destination : String
  date : String
  time : String
  notes : String
deriving DecidableEq, Repr

/-- The per-line-item transform of `fetchInOutData`; `now` stands for
`new Date().toISOString()`, `i` is the index of `item` in `record.items`.
`record.createdAt || record.updatedAt || now` picks the first non-empty
timestamp; `dt.split('T')[0]` is the date, and the time is the first eight
characters after the `'T'`, defaulting to `'00:00:00'`.  The quantity
passes through `|| 0`, the identity on this integer model.  Both client
variants spell the `type` normalisation differently
(`(t || 'INBOUND').toLowerCase()` vs `t?.toLowerCase() || 'inbound'`) with
the same result on strings. -/
def toInOutRecord (now : String) (record : RawOrder) (i : Nat) (item : OrderItem) :
    InOutRecord :=
  let dt := jsOr record.createdAt (jsOr record.updatedAt now)
  let parts := dt.splitOn "T"
  { id := toString record.orderId ++ "-" ++ toString i
    type := jsOr record.type.toLower "inbound"
    productName := jsOr item.itemName "N/A"
    sku := jsOr item.itemCode "N/A"
    individualCode := "ORDER-" ++ toString record.orderId ++ "-" ++ toString item.itemId
    specification := jsOr item.specification "N/A"
    quantity := item.requestedQuantity
    location := "A-01"
    company := jsOr record.companyName "N/A"
    companyCode := jsOr record.companyCode "N/A"
    status := if record.status = "COMPLETED" then "완료" else "진행 중"
    destination := "-"
    date := parts.headD ""
    time := jsOr ((parts.getD 1 "").take 8) "00:00:00"
    notes := "-" }

/-- `fetchInOutData`: keep the orders whose status is `'COMPLETED'` and
flatten them, one record per line item. -/
def fetchInOutData (now : String) (allData : List RawOrder) : List InOutRecord :=
  (allData.filter (fun r => r.status = "COMPLETED")).flatMap
    (fun record => record.items.enum.map (fun p => toInOutRecord now record p.1 p.2))

/-! ## Dashboard aggregator -/

/-- One backend user record, per the declared `UserResponse` interface
(the shape of the `users` entries of the consolidated `/api/dashboard/all`
payload and of `GET /api/users`). -/
structure BackendUser where
  userId : Int
  username : String
  email : String
  fullName : String
  role : String
  status : String
  lastLogin : String
  joinedAt : String
deriving DecidableEq, Repr

/-- One frontend `User` as produced by `fetchUsers`. -/
structure UiUser where
  id : Int
  username : String
  email : String
  fullName : String
  role : String
  status : String
  lastLogin : String
  createdAt : String
deriving DecidableEq, Repr

/-- The per-user transform of `fetchUsers`: `fmtLast`/`fmtJoined` stand for
the `toLocaleString('ko-KR', …)`/`toLocaleDateString('ko-KR')` formatters
and `nowStr` for the formatted current date; a falsy (empty) `lastLogin`
becomes the '접속 기록 없음' placeholder. -/
def fetchUsersMap (fmtLast fmtJoined : String → String) (nowStr : String)
    (u : BackendUser) : UiUser :=
  { id := u.userId
    username := u.username
    email := u.email
    fullName := u.fullName
    role := u.role
    status := u.status
    lastLogin := if u.lastLogin = "" then "접속 기록 없음" else fmtLast u.lastLogin
    createdAt := if u.joinedAt = "" then nowStr else fmtJoined u.joinedAt }

/-- A JSON object, modelled as its list of key/value fields (values
rendered as strings); used to compare payload shapes field for field. -/
abbrev JsObj := List (String × String)

/-- The user object assembled by the dashboard fallback path:
`{ userId: u.id, username, email, fullName, role, status }` — exactly six
fields. -/
def fallbackUserObj (u : UiUser) : JsObj :=
  [("userId", toString u.id), ("username", u.username), ("email", u.email),
   ("fullName", u.fullName), ("role", u.role), ("status", u.status)]

/-- Modelled from the spec: the user objects inside the consolidated
`/api/dashboard/all` payload follow the declared `UserResponse` interface
(the backend itself is not part of this repository), so they carry the
eight fields `userId`, `username`, `email`, `fullName`, `role`, `status`,
`lastLogin`, `joinedAt`. -/
def consolidatedUserObj (u : BackendUser) : JsObj :=
  [("userId", toString u.userId), ("username", u.username), ("email", u.email),
   ("fullName", u.fullName), ("role", u.role), ("status", u.status),
   ("lastLogin", u.lastLogin), ("joinedAt", u.joinedAt)]

/-- Modelled from the spec: the consolidated `/api/dashboard/all` payload,
per the declared `DashboardData` interface — five collections plus a
summary.  The collections other than `users` are relayed opaquely by the
client, so they are modelled as opaque payload tokens. -/
structure ConsolidatedPayload where
  items : List String
  users : List BackendUser
  orders : List String
  inventory : List String
  schedules : List String
  summary : String
deriving DecidableEq, Repr

/-- The dashboard value returned to the caller; `users` entries are kept as
JSON object shapes so both the consolidated and the fallback path can be
compared field for field. -/
structure DashboardData where
  items : List String
  users : List JsObj
  orders : List String
  inventory : List String
  schedules : List String
  summary : String
  totalLoadTime : Nat
deriving DecidableEq, Repr

/-- `fetchDashboardAllFallback` (session variant): six concurrent reads
under `Promise.all` — one rejection rejects the aggregate (the `catch`
rethrows), so `none` inputs yield `none`; on success the snapshot is
assembled with `users` reshaped to six-field objects.  `clock i` is the
value of the `i`-th `Date.now()` call on the fallback path of a
consolidated-read failure: 0 = `fetchDashboardAll` entry, 1 = its `catch`
logging, 2 = fallback entry (`startTime`), 3 = fallback completion — the
reported `totalLoadTime` is `clock 3 - clock 2`. -/
def fetchDashboardAllFallback (clock : Nat → Nat)
    (items : Option (List String)) (users : Option (List UiUser))
    (orders inventory schedules : Option (List String)) (summary : Option String) :
    Option DashboardData :=
  match items, users, orders, inventory, schedules, summary with
  | some it, some us, some os, some inv, some sch, some sm =>
      some { items := it
             users := us.map fallbackUserObj
             orders := os
             inventory := inv
             schedules := sch
             summary := sm
             totalLoadTime := clock 3 - clock 2 }
  | _, _, _, _, _, _ => none

/-- `fetchDashboardAll` (session variant, `src/unnamed/part_000`): attempt
the consolidated read; on success report `Date.now() - startTime` (samples
1 and 0); on any failure delegate to `fetchDashboardAllFallback`, which
restarts its own `startTime`. -/
def fetchDashboardAllB (clock : Nat → Nat) (consolidated : Option ConsolidatedPayload)
    (items : Option (List String)) (users : Option (List UiUser))
    (orders inventory schedules : Option (List String)) (summary : Option String) :
    Option DashboardData :=
  match consolidated with
  | some d =>
      some { items := d.items
             users := d.users.map consolidatedUserObj
             orders := d.orders
             inventory := d.inventory
             schedules := d.schedules
             summary := d.summary
             totalLoadTime := clock 1 - clock 0 }
  | none =>
      fetchDashboardAllFallback clock items users orders inventory schedules summary

/-- `fetchDashboardAll` (bearer variant, `src/lib/api.ts`): the fallback is
inlined in the `catch` and reuses the `start` sample of the consolidated
attempt, so on either path `totalLoadTime = Date.now() - start` with
`start` taken before the consolidated attempt (samples 1 and 0). -/
def fetchDashboardAllA (clock : Nat → Nat) (consolidated : Option ConsolidatedPayload)
    (items : Option (List String)) (users : Option (List UiUser))
    (orders inventory schedules : Option (List String)) (summary : Option String) :
    Option DashboardData :=
  match consolidated with
  | some d =>
      some { items := d.items
             users := d.users.map consolidatedUserObj
             orders := d.orders
             inventory := d.inventory
             schedules := d.schedules
             summary := d.summary
             totalLoadTime := clock 1 - clock 0 }
  | none =>
      match items, users, orders, inventory, schedules, summary with
      | some it, some us, some os, some inv, some sch, some sm =>
          some { items := it
                 users := us.map fallbackUserObj
                 orders := os
                 inventory := inv
                 schedules := sch
                 summary := sm
                 totalLoadTime := clock 1 - clock 0 }
      | _, _, _, _, _, _ => none

/-! ## Claims -/

/-- C1 (counterexample): the claim says identifier `""` fails with an
invalid-identifier error before any network call; in the code
`Number("".split('-')[0]) = Number("") = 0`, which is not `NaN`, so all
three operations accept `""` and issue a network call addressing order id
`0` — `updateOrderStatus` and `updateInOutRecord` even hit the same
`/api/inout/orders/0/status` path. -/
theorem c1_counterexample :
    updateOrderStatus "" = Except.ok [⟨Method.PUT, "/api/inout/orders/0/status"⟩] ∧
    cancelInOutOrder "" = Except.ok [⟨Method.PUT, "/api/inout/orders/0/cancel"⟩] ∧
    updateInOutRecord "" (fun _ => NetResp.ok "r") =
      ⟨Except.ok "r", [⟨Method.PUT, "/api/inout/orders/0/status"⟩]⟩ := by
  refine ⟨rfl, rfl, ?_⟩
  have h : jsNumber (updateInOutParse "") = some 0 := by
    rw [updateInOutParse_eq_leadingSegment]; decide
  simp only [updateInOutRecord, h]
  decide

/-- C1 (amended): for every operation addressing an order by its composite
identifier (`updateOrderStatus`, `cancelInOutOrder`, `updateInOutRecord`),
the leading segment before the first `'-'` is converted with JavaScript
`Number` semantics, and the operation fails synchronously with an
invalid-identifier error before any network call exactly when that
conversion yields `NaN`; `"482-3"` parses to order id 482 and `"abc-3"`
fails before any network call, but `""` converts to 0 (not `NaN`), so it
is accepted and a network call addressing order id 0 is issued; positivity
of the parsed value is not checked. -/
theorem c1_amended_parse (id : String) :
    (updateOrderStatus id = Except.error IdError.invalidOrderId ↔
        jsNumber (leadingSegment id) = none) ∧
    (cancelInOutOrder id = Except.error IdError.invalidOrderId ↔
        jsNumber (leadingSegment id) = none) ∧
    (∀ net, jsNumber (leadingSegment id) = none →
        updateInOutRecord id net = ⟨Except.error UpdateErr.invalidId, []⟩) ∧
    (∀ n, jsNumber (leadingSegment id) = some n →
        updateOrderStatus id =
          Except.ok [⟨Method.PUT, "/api/inout/orders/" ++ toString n ++ "/status"⟩]) ∧
    jsNumber (leadingSegment "482-3") = some 482 ∧
    updateOrderStatus "482-3" =
      Except.ok [⟨Method.PUT, "/api/inout/orders/482/status"⟩] ∧
    jsNumber (leadingSegment "abc-3") = none ∧
    updateOrderStatus "abc-3" = Except.error IdError.invalidOrderId ∧
    jsNumber (leadingSegment "") = some 0 := by
  refine ⟨?_, ?_, ?_, ?_, by decide, rfl, by decide, rfl, by decide⟩
  · cases h : jsNumber (leadingSegment id) <;> simp [updateOrderStatus, h]
  · cases h : jsNumber (leadingSegment id) <;> simp [cancelInOutOrder, h]
  · intro net h
    simp [updateInOutRecord, updateInOutParse_eq_leadingSegment, h]
  · intro n h
    simp [updateOrderStatus, h]

/-- C1 (witness): the amended claim applied at the identifier `"abc-3"`. -/
theorem c1_witness :
    updateOrderStatus "abc-3" = Except.error IdError.invalidOrderId :=
  (c1_amended_parse "abc-3").1.mpr (by decide)

/-- The first probe of `updateInOutRecord`: `PUT` on the `/status`
sub-resource of the order. -/
def statusCall (n : Int) : Call :=
  ⟨Method.PUT, "/api/inout/orders/" ++ toString n ++ "/status"⟩

/-- The second probe: `PATCH` on the order's base path. -/
def patchCall (n : Int) : Call := ⟨Method.PATCH, "/api/inout/orders/" ++ toString n⟩

/-- The third probe: `PUT` on the order's base path. -/
def basePutCall (n : Int) : Call := ⟨Method.PUT, "/api/inout/orders/" ++ toString n⟩

/-- C5 (confirmed): for every invocation of `updateInOutRecord` with a
valid identifier, a `PUT` is issued to the order's `/status` sub-resource;
if and only if that fails with 405 a `PATCH` is issued to the base path;
if and only if that also fails with 405 a `PUT` is issued to the base
path; the first non-405 outcome is returned — in particular the
405/405/success run performs exactly the three calls in that order and
returns the third result — and any failure other than 405 (another HTTP
status, or a network failure without a response) propagates immediately
without further probing. -/
theorem c5_verb_fallback (id : String) (n : Int)
    (hid : jsNumber (updateInOutParse id) = some n) (net : Call → NetResp) :
    (∀ b, net (statusCall n) = NetResp.ok b →
        updateInOutRecord id net = ⟨Except.ok b, [statusCall n]⟩) ∧
    (∀ s, net (statusCall n) = NetResp.httpErr s → s ≠ 405 →
        updateInOutRecord id net = ⟨Except.error (UpdateErr.http s), [statusCall n]⟩) ∧
    (net (statusCall n) = NetResp.netFail →
        updateInOutRecord id net = ⟨Except.error UpdateErr.network, [statusCall n]⟩) ∧
    (∀ b, net (statusCall n) = NetResp.httpErr 405 → net (patchCall n) = NetResp.ok b →
        updateInOutRecord id net = ⟨Except.ok b, [statusCall n, patchCall n]⟩) ∧
    (∀ s, net (statusCall n) = NetResp.httpErr 405 → net (patchCall n) = NetResp.httpErr s →
        s ≠ 405 →
        updateInOutRecord id net =
          ⟨Except.error (UpdateErr.http s), [statusCall n, patchCall n]⟩) ∧
    (net (statusCall n) = NetResp.httpErr 405 → net (patchCall n) = NetResp.netFail →
        updateInOutRecord id net =
          ⟨Except.error UpdateErr.network, [statusCall n, patchCall n]⟩) ∧
    (∀ b, net (statusCall n) = NetResp.httpErr 405 → net (patchCall n) = NetResp.httpErr 405 →
        net (basePutCall n) = NetResp.ok b →
        updateInOutRecord id net =
          ⟨Except.ok b, [statusCall n, patchCall n, basePutCall n]⟩) ∧
    (∀ s, net (statusCall n) = NetResp.httpErr 405 → net (patchCall n) = NetResp.httpErr 405 →
        net (basePutCall n) = NetResp.httpErr s →
        updateInOutRecord id net =
          ⟨Except.error (UpdateErr.http s), [statusCall n, patchCall n, basePutCall n]⟩) ∧
    (net (statusCall n) = NetResp.httpErr 405 → net (patchCall n) = NetResp.httpErr 405 →
        net (basePutCall n) = NetResp.netFail →
        updateInOutRecord id net =
          ⟨Except.error UpdateErr.network, [statusCall n, patchCall n, basePutCall n]⟩) := by
  refine ⟨?_, ?_, ?_, ?_, ?_, ?_, ?_, ?_, ?_⟩
  · intro b h1
    simp only [statusCall] at h1
    simp [updateInOutRecord, hid, statusCall, h1]
  · intro s h1 hs
    simp only [statusCall] at h1
    simp [updateInOutRecord, hid, statusCall, h1, hs]
  · intro h1
    simp only [statusCall] at h1
    simp [updateInOutRecord, hid, statusCall, h1]
  · intro b h1 h2
    simp only [statusCall] at h1
    simp only [patchCall] at h2
    simp [updateInOutRecord, hid, statusCall, patchCall, h1, h2]
  · intro s h1 h2 hs
    simp only [statusCall] at h1
    simp only [patchCall] at h2
    simp [updateInOutRecord, hid, statusCall, patchCall, h1, h2, hs]
  · intro h1 h2
    simp only [statusCall] at h1
    simp only [patchCall] at h2
    simp [updateInOutRecord, hid, statusCall, patchCall, h1, h2]
  · intro b h1 h2 h3
    simp only [statusCall] at h1
    simp only [patchCall] at h2
    simp only [basePutCall] at h3
    simp [updateInOutRecord, hid, statusCall, patchCall, basePutCall, h1, h2, h3]
  · intro s h1 h2 h3
    simp only [statusCall] at h1
    simp only [patchCall] at h2
    simp only [basePutCall] at h3
    simp [updateInOutRecord, hid, statusCall, patchCall, basePutCall, h1, h2, h3]
  · intro h1 h2 h3
    simp only [statusCall] at h1
    simp only [patchCall] at h2
    simp only [basePutCall] at h3
    simp [updateInOutRecord, hid, statusCall, patchCall, basePutCall, h1, h2, h3]

/-- The 405/405/success transport used as the concrete C5 run. -/
def netEx : Call → NetResp := fun c =>
  if c.path = "/api/inout/orders/7/status" then NetResp.httpErr 405
  else if c.verb = Method.PATCH then NetResp.httpErr 405
  else NetResp.ok "third"

/-- C5 (witness): the 405/405/success run on order `"7-0"` performs exactly
the three probes in order and returns the third result. -/
theorem c5_witness :
    updateInOutRecord "7-0" netEx =
      ⟨Except.ok "third", [statusCall 7, patchCall 7, basePutCall 7]⟩ :=
  (c5_verb_fallback "7-0" 7
        (by rw [updateInOutParse_eq_leadingSegment]; decide) netEx).2.2.2.2.2.2.1
    "third" (by decide) (by decide) (by decide)

/-- A mutating request configuration used in the concrete C2 runs. -/
def cfgPost : ReqConfig := ⟨Method.POST, "/api/items", [], [], "{}", false⟩

/-- Token endpoints that deliver a usable token `"tokA"` at once. -/
def envGood : CsrfEnv := ⟨FetchOutcome.resp true (some "tokA"), FetchOutcome.netErr⟩

/-- Token endpoints that are both unreachable. -/
def envDead : CsrfEnv := ⟨FetchOutcome.netErr, FetchOutcome.netErr⟩

/-- C2 (counterexample): the claim says every state-mutating request whose
first attempt is rejected with 403 gets exactly one retry; but when the
recovery token acquisition fails (both token endpoints unreachable) the
code's inner `catch` swallows it and rethrows the original error, so this
concrete mutating POST whose first attempt returns 403 is never re-issued:
exactly one request is transmitted and the original 403 propagates. -/
theorem c2_counterexample :
    (runRequest cfgPost (some "tok0") envGood envDead
        (fun _ => NetResp.httpErr 403) 1 2).sent.length = 1 ∧
    (runRequest cfgPost (some "tok0") envGood envDead
        (fun _ => NetResp.httpErr 403) 1 2).result = Except.error (RunErr.http 403) := by
  refine ⟨by decide, by decide⟩

/-- C2 (amended): under the session model, for every state-mutating request
whose first attempt is rejected with 403 and that was not already retried,
if the recovery token acquisition succeeds then exactly one retry is
performed — the cached CSRF token is discarded, a fresh token `t2` is
acquired, and the original request is re-issued exactly once carrying `t2`
in its `X-CSRF-TOKEN` header — and the outcome of that single retry,
success or failure, is returned with no further retry; if the recovery
acquisition fails, the original 403 is propagated with no retry at all
(and the token cache stays cleared); and a non-403 failure, a network
failure, or a failure of an already-retried request is propagated
unchanged with no retry. -/
theorem c2_retry_once (cfg : ReqConfig) (cache0 : Option String) (envI envR : CsrfEnv)
    (respond : Nat → NetResp) (now1 now2 : Nat) (prep : PrepResult)
    (hm : isSafeMethod cfg.method = false) (hr : cfg.retriedOnce = false)
    (hp : requestInterceptorS cfg cache0 envI now1 = Except.ok prep) :
    (∀ t2 tr, respond 0 = NetResp.httpErr 403 → fetchCsrfToken envR = (Except.ok t2, tr) →
        runRequest cfg cache0 envI envR respond now1 now2 =
          ⟨propagateResp (respond 1),
            [prep.config, retriedConfig prep.config t2 now2], 1, some t2⟩ ∧
        (retriedConfig prep.config t2 now2).headers.lookup "X-CSRF-TOKEN" = some t2) ∧
    (∀ e tr, respond 0 = NetResp.httpErr 403 → fetchCsrfToken envR = (Except.error e, tr) →
        runRequest cfg cache0 envI envR respond now1 now2 =
          ⟨Except.error (RunErr.http 403), [prep.config], 1, none⟩) ∧
    (∀ s, respond 0 = NetResp.httpErr s → s ≠ 403 →
        runRequest cfg cache0 envI envR respond now1 now2 =
          ⟨Except.error (RunErr.http s), [prep.config], 0, prep.cache⟩) ∧
    (respond 0 = NetResp.netFail →
        runRequest cfg cache0 envI envR respond now1 now2 =
          ⟨Except.error RunErr.network, [prep.config], 0, prep.cache⟩) ∧
    (∀ b, respond 0 = NetResp.ok b →
        runRequest cfg cache0 envI envR respond now1 now2 =
          ⟨Except.ok b, [prep.config], 0, prep.cache⟩) ∧
    (∀ cfg2 prep2, cfg2.retriedOnce = true →
        requestInterceptorS cfg2 cache0 envI now1 = Except.ok prep2 →
        respond 0 = NetResp.httpErr 403 →
        runRequest cfg2 cache0 envI envR respond now1 now2 =
          ⟨Except.error (RunErr.http 403), [prep2.config], 0, prep2.cache⟩) := by
  refine ⟨?_, ?_, ?_, ?_, ?_, ?_⟩
  · intro t2 tr h0 hacq
    refine ⟨?_, lookup_setHeader _ _ _⟩
    simp [runRequest, hp, h0, hm, hr, hacq, retriedConfig]
  · intro e tr h0 hacq
    simp [runRequest, hp, h0, hm, hr, hacq]
  · intro s h0 hs
    simp [runRequest, hp, h0, hm, hr, hs]
  · intro h0
    simp [runRequest, hp, h0]
  · intro b h0
    simp [runRequest, hp, h0]
  · intro cfg2 prep2 hr2 hp2 h0
    simp [runRequest, hp2, h0, hr2]

/-- C2 (witness): a concrete mutating POST whose first attempt is rejected
with 403 and retried once with a fresh token, the retry succeeding. -/
theorem c2_witness :
    runRequest cfgPost (some "tok0") envGood envGood
        (fun i => if i = 0 then NetResp.httpErr 403 else NetResp.ok "done") 1 2 =
      ⟨Except.ok "done",
        [⟨Method.POST, "/api/items", [("_t", PVal.num 1)],
            [("X-CSRF-TOKEN", "tok0")], "{}", false⟩,
         ⟨Method.POST, "/api/items", [("_t", PVal.num 2)],
            [("X-CSRF-TOKEN", "tokA")], "{}", true⟩], 1, some "tokA"⟩ := by
  have h := (c2_retry_once cfgPost (some "tok0") envGood envGood
      (fun i => if i = 0 then NetResp.httpErr 403 else NetResp.ok "done") 1 2
      ⟨⟨Method.POST, "/api/items", [("_t", PVal.num 1)],
          [("X-CSRF-TOKEN", "tok0")], "{}", false⟩, some "tok0", 0, []⟩
      (by decide) (by decide) (by decide)).1 "tokA" [⟨"/api/csrf", []⟩]
      (by decide) (by decide)
  exact h.1.trans (by decide)

/-- Token acquisition only ever hits the two token endpoints, primary
first, and each call is a raw fetch carrying no headers. -/
theorem fetchCsrfToken_calls (env : CsrfEnv) :
    (fetchCsrfToken env).2 = [⟨"/api/csrf", []⟩] ∨
    (fetchCsrfToken env).2 = [⟨"/api/csrf", []⟩, ⟨"/csrf", []⟩] := by
  unfold fetchCsrfToken
  cases h1 : respToken env.primary with
  | some t => exact Or.inl rfl
  | none =>
      cases h2 : env.secondary with
      | netErr => exact Or.inr rfl
      | resp ok tok =>
          cases h3 : respToken (FetchOutcome.resp ok tok) with
          | some t => exact Or.inr (by simp [h3])
          | none => exact Or.inr (by simp [h3])

/-- C6 (confirmed): under the session model, a read-only request (GET,
HEAD, OPTIONS) passes the interceptor with its headers untouched — no
`X-CSRF-TOKEN` header is attached — and zero token acquisitions; a
state-mutating request with no cached token performs exactly one blocking
token-acquisition round trip before it is sent and then carries the
acquired token in its `X-CSRF-TOKEN` header (when acquisition fails the
request is rejected and never sent); a state-mutating request with a
cached token performs no acquisition; and the acquisition requests
themselves are raw fetches against the token endpoints carrying no
headers, hence no CSRF injection. -/
theorem c6_csrf_injection (cfg : ReqConfig) (cache : Option String) (env : CsrfEnv)
    (now : Nat) :
    (isSafeMethod cfg.method = true →
        requestInterceptorS cfg cache env now =
          Except.ok ⟨{ cfg with params := withCacheBust cfg.params now }, cache, 0, []⟩) ∧
    (isSafeMethod cfg.method = false → cache = none →
        ∀ t calls, fetchCsrfToken env = (Except.ok t, calls) →
          requestInterceptorS cfg cache env now =
            Except.ok ⟨{ cfg with
                          params := withCacheBust cfg.params now
                          headers := setHeader cfg.headers "X-CSRF-TOKEN" t },
              some t, 1, calls⟩ ∧
          (setHeader cfg.headers "X-CSRF-TOKEN" t).lookup "X-CSRF-TOKEN" = some t) ∧
    (isSafeMethod cfg.method = false → cache = none →
        ∀ e calls, fetchCsrfToken env = (Except.error e, calls) →
          requestInterceptorS cfg cache env now = Except.error e) ∧
    (isSafeMethod cfg.method = false → ∀ t, cache = some t →
        requestInterceptorS cfg cache env now =
          Except.ok ⟨{ cfg with
                        params := withCacheBust cfg.params now
                        headers := setHeader cfg.headers "X-CSRF-TOKEN" t },
            some t, 0, []⟩) ∧
    (∀ c, c ∈ (fetchCsrfToken env).2 → c.headers = []) := by
  refine ⟨?_, ?_, ?_, ?_, ?_⟩
  · intro hs
    simp [requestInterceptorS, hs]
  · intro hs hc t calls hacq
    subst hc
    refine ⟨?_, lookup_setHeader _ _ _⟩
    simp [requestInterceptorS, hs, hacq]
  · intro hs hc e calls hacq
    subst hc
    simp [requestInterceptorS, hs, hacq]
  · intro hs t hc
    subst hc
    simp [requestInterceptorS, hs]
  · intro c hc
    rcases fetchCsrfToken_calls env with h | h <;> rw [h] at hc <;>
      simp at hc <;> first
      | (rw [hc]) | (rcases hc with hc | hc <;> rw [hc])

/-- C6 (witness): a concrete mutating POST with no cached token acquires a
token in one round trip and carries it in its `X-CSRF-TOKEN` header. -/
theorem c6_witness :
    requestInterceptorS cfgPost none envGood 9 =
      Except.ok ⟨⟨Method.POST, "/api/items", [("_t", PVal.num 9)],
          [("X-CSRF-TOKEN", "tokA")], "{}", false⟩,
        some "tokA", 1, [⟨"/api/csrf", []⟩]⟩ := by
  have h := ((c6_csrf_injection cfgPost none envGood 9).2.1 (by decide) rfl
      "tokA" [⟨"/api/csrf", []⟩] (by decide)).1
  exact h.trans (by decide)

/-- C7 (counterexample): the claim says that whenever neither endpoint
yields a token the failure is the distinct "security token unavailable"
error; but when the secondary `fetch('/csrf')` itself rejects (both
endpoints unreachable), that rejection propagates as-is — `fetchCsrfToken`
fails with the network error, not with the token-unavailable error. -/
theorem c7_counterexample :
    (fetchCsrfToken ⟨FetchOutcome.netErr, FetchOutcome.netErr⟩).1 =
      Except.error CsrfError.network ∧
    CsrfError.network ≠ CsrfError.tokenUnavailable := by
  refine ⟨rfl, by decide⟩

/-- C7 (amended): `fetchCsrfToken` consults `/api/csrf` first; if that call
does not yield a usable token it consults `/csrf`; when both calls
complete but neither yields a usable token it fails with the distinct
token-unavailable error, while a network-level rejection of the secondary
request propagates as that network error instead; the two endpoints are
consulted in this fixed order — the trace is either `[/api/csrf]` or
`[/api/csrf, /csrf]` — and acquisition never touches any resource path. -/
theorem c7_amended_token_acquisition (env : CsrfEnv) :
    (∀ t, respToken env.primary = some t →
        fetchCsrfToken env = (Except.ok t, [⟨"/api/csrf", []⟩])) ∧
    (∀ t, respToken env.primary = none → respToken env.secondary = some t →
        fetchCsrfToken env = (Except.ok t, [⟨"/api/csrf", []⟩, ⟨"/csrf", []⟩])) ∧
    (∀ ok tok, respToken env.primary = none → env.secondary = FetchOutcome.resp ok tok →
        respToken env.secondary = none →
        fetchCsrfToken env =
          (Except.error CsrfError.tokenUnavailable,
            [⟨"/api/csrf", []⟩, ⟨"/csrf", []⟩])) ∧
    (respToken env.primary = none → env.secondary = FetchOutcome.netErr →
        fetchCsrfToken env =
          (Except.error CsrfError.network, [⟨"/api/csrf", []⟩, ⟨"/csrf", []⟩])) ∧
    ((fetchCsrfToken env).2 = [⟨"/api/csrf", []⟩] ∨
        (fetchCsrfToken env).2 = [⟨"/api/csrf", []⟩, ⟨"/csrf", []⟩]) := by
  refine ⟨?_, ?_, ?_, ?_, fetchCsrfToken_calls env⟩
  · intro t h1
    simp [fetchCsrfToken, h1]
  · intro t h1 h2
    cases hs : env.secondary with
    | netErr => rw [hs] at h2; simp [respToken] at h2
    | resp ok tok =>
        rw [hs] at h2
        simp [fetchCsrfToken, h1, hs, h2]
  · intro ok tok h1 hs h2
    simp [fetchCsrfToken, h1, hs, hs ▸ h2]
  · intro h1 hs
    simp [fetchCsrfToken, h1, hs]

/-- C7 (witness): the amended claim applied to endpoints whose primary
yields nothing usable and whose secondary responds without a token field:
acquisition fails with the distinct token-unavailable error after
consulting both endpoints in order. -/
theorem c7_witness :
    fetchCsrfToken ⟨FetchOutcome.resp false none, FetchOutcome.resp true none⟩ =
      (Except.error CsrfError.tokenUnavailable,
        [⟨"/api/csrf", []⟩, ⟨"/csrf", []⟩]) :=
  (c7_amended_token_acquisition
      ⟨FetchOutcome.resp false none, FetchOutcome.resp true none⟩).2.2.1
    true none (by decide) rfl (by decide)

/-- A plain GET request with no pre-existing headers or params. -/
def cfgGetEx : ReqConfig := ⟨Method.GET, "/api/items", [], [], "", false⟩

/-- C8 (counterexample): the claim says every request gains only the `_t`
parameter "while all other request fields are left unchanged"; but the
bearer-variant interceptor also attaches an `Authorization` header
whenever a token sits in persistent storage — on this concrete GET the
outgoing headers differ from the incoming ones. -/
theorem c8_counterexample :
    (requestInterceptorBearer cfgGetEx (some "tok") 7).headers ≠ cfgGetEx.headers ∧
    (requestInterceptorBearer cfgGetEx (some "tok") 7).headers =
      [("Authorization", "Bearer tok")] := by
  refine ⟨by decide, by decide⟩

/-- C8 (amended): in both client variants every outgoing request receives
the `_t` query parameter carrying the current timestamp, with the url,
verb, body and all other query parameters unchanged; the headers, however,
may additionally gain an `Authorization` header (bearer variant, when a
token is in storage) or an `X-CSRF-TOKEN` header (session variant,
mutating requests); and two requests stamped at different timestamps carry
different `_t` values even for identical url and body. -/
theorem c8_amended_cache_bust (cfg : ReqConfig) (stored cache : Option String)
    (env : CsrfEnv) (now now1 now2 : Nat) :
    ((requestInterceptorBearer cfg stored now).params.lookup "_t" =
        some (PVal.num now)) ∧
    ((requestInterceptorBearer cfg stored now).params.filter (fun p => p.1 != "_t") =
        cfg.params.filter (fun p => p.1 != "_t")) ∧
    ((requestInterceptorBearer cfg stored now).url = cfg.url ∧
      (requestInterceptorBearer cfg stored now).method = cfg.method ∧
      (requestInterceptorBearer cfg stored now).body = cfg.body) ∧
    (stored = none → (requestInterceptorBearer cfg stored now).headers = cfg.headers) ∧
    (∀ t, stored = some t → (requestInterceptorBearer cfg stored now).headers =
        setHeader cfg.headers "Authorization" ("Bearer " ++ t)) ∧
    (∀ prep, requestInterceptorS cfg cache env now = Except.ok prep →
        prep.config.params.lookup "_t" = some (PVal.num now) ∧
        prep.config.url = cfg.url ∧ prep.config.method = cfg.method ∧
        prep.config.body = cfg.body) ∧
    (now1 ≠ now2 → some (PVal.num now1) ≠ some (PVal.num now2)) := by
  refine ⟨?_, ?_, ?_, ?_, ?_, ?_, ?_⟩
  · cases stored <;> simp [requestInterceptorBearer, lookup_withCacheBust]
  · cases stored <;> simp [requestInterceptorBearer, filter_withCacheBust]
  · cases stored <;> simp [requestInterceptorBearer]
  · intro h; subst h; simp [requestInterceptorBearer]
  · intro t h; subst h; simp [requestInterceptorBearer]
  · intro prep hp
    unfold requestInterceptorS at hp
    by_cases hs : isSafeMethod cfg.method
    · rw [if_pos hs] at hp
      cases hp
      exact ⟨lookup_withCacheBust _ _, rfl, rfl, rfl⟩
    · rw [if_neg hs] at hp
      cases hc : cache with
      | some t =>
          rw [hc] at hp
          cases hp
          exact ⟨lookup_withCacheBust _ _, rfl, rfl, rfl⟩
      | none =>
          rw [hc] at hp
          cases hacq : fetchCsrfToken env with
          | mk r calls =>
              rw [hacq] at hp
              cases r with
              | ok t =>
                  cases hp
                  exact ⟨lookup_withCacheBust _ _, rfl, rfl, rfl⟩
              | error e => cases hp
  · intro h he
    exact h (PVal.num.inj (Option.some.inj he))

/-- C8 (witness): the amended claim applied to a concrete GET without a
stored token and to two distinct timestamps. -/
theorem c8_witness :
    (requestInterceptorBearer cfgGetEx none 7).params.lookup "_t" =
        some (PVal.num 7) ∧
    (requestInterceptorBearer cfgGetEx none 7).headers = cfgGetEx.headers ∧
    some (PVal.num 7) ≠ some (PVal.num 8) := by
  have h := c8_amended_cache_bust cfgGetEx none none envGood 7 7 8
  exact ⟨h.1, h.2.2.2.1 rfl, h.2.2.2.2.2.2 (by decide)⟩

/-- A concrete clock for the dashboard runs: the consolidated attempt
starts at 0 and fails at 100; the fallback starts at 100 and completes at
150 (`Date.now()` samples 0, 1, 2, 3 in order). -/
def clockEx : Nat → Nat := fun i =>
  if i = 0 then 0 else if i = 1 then 100 else if i = 2 then 100 else 150

/-- C3 (counterexample): the claim says the reported `totalLoadTime` is
measured from the start of the first (consolidated) attempt; but the
session-variant `fetchDashboardAllFallback` restarts its own `startTime`,
so on this concrete run — consolidated attempt 0→100 (fails), fallback
100→150 — the reported time is 50, not the 150 measured from the first
attempt, and the 100 spent on the failed consolidated attempt is not
included. -/
theorem c3_counterexample :
    (fetchDashboardAllB clockEx none (some []) (some []) (some []) (some [])
        (some []) (some "s")).map DashboardData.totalLoadTime = some 50 ∧
    clockEx 3 - clockEx 0 = 150 ∧ (50 : Nat) ≠ 150 := by
  refine ⟨rfl, rfl, by decide⟩

/-- C3 (amended): when the consolidated read fails and the fallback path
runs, the bearer-variant `fetchDashboardAll` (src/lib/api.ts) reports a
`totalLoadTime` measured from the start of the consolidated attempt
(samples 0 and 1 of the clock), so it includes the failed first attempt;
the session-variant fallback restarts its measurement and reports only the
fallback phase (samples 2 and 3). -/
theorem c3_amended_load_time (clock : Nat → Nat) (items : Option (List String))
    (users : Option (List UiUser)) (orders inventory schedules : Option (List String))
    (summary : Option String) (d : DashboardData) :
    (fetchDashboardAllA clock none items users orders inventory schedules summary =
        some d → d.totalLoadTime = clock 1 - clock 0) ∧
    (fetchDashboardAllB clock none items users orders inventory schedules summary =
        some d → d.totalLoadTime = clock 3 - clock 2) := by
  constructor
  · intro h
    cases items <;> cases users <;> cases orders <;> cases inventory <;>
      cases schedules <;> cases summary <;>
      simp only [fetchDashboardAllA] at h <;> cases h <;> rfl
  · intro h
    cases items <;> cases users <;> cases orders <;> cases inventory <;>
      cases schedules <;> cases summary <;>
      simp only [fetchDashboardAllB, fetchDashboardAllFallback] at h <;>
      cases h <;> rfl

/-- C3 (witness): the amended claim applied to the concrete fallback run
of the session variant, whose reported time is the 50 of the fallback
phase. -/
theorem c3_witness :
    (⟨[], [], [], [], [], "s", 50⟩ : DashboardData).totalLoadTime =
      clockEx 3 - clockEx 2 :=
  (c3_amended_load_time clockEx (some []) (some []) (some []) (some []) (some [])
      (some "s") ⟨[], [], [], [], [], "s", 50⟩).2 rfl

/-- A concrete backend user with a login history, as the consolidated
endpoint would deliver it. -/
def uBEx : BackendUser := ⟨1, "u", "u@x", "U", "ADMIN", "ACTIVE", "L", "J"⟩

/-- The same user after the `fetchUsers` round trip of the fallback path
(identity formatters suffice: the fallback keeps none of the formatted
fields). -/
def uUEx : UiUser := fetchUsersMap (fun s => s) (fun s => s) "now" uBEx

/-- C4 (counterexample): the claim says the assembled fallback result has
the same field-for-field shape as the consolidated payload; but the
fallback rebuilds each user object with only six fields — `userId`,
`username`, `email`, `fullName`, `role`, `status` — dropping the
`lastLogin` and `joinedAt` fields that the consolidated payload's user
objects carry, so for this concrete user the two snapshots differ in their
`users` field, and even the two key sets differ. -/
theorem c4_counterexample :
    (fetchDashboardAllB clockEx none (some []) (some [uUEx]) (some []) (some [])
        (some []) (some "s")).map DashboardData.users = some [fallbackUserObj uUEx] ∧
    (fetchDashboardAllB clockEx (some ⟨[], [uBEx], [], [], [], "s"⟩)
        none none none none none none).map DashboardData.users =
      some [consolidatedUserObj uBEx] ∧
    fallbackUserObj uUEx ≠ consolidatedUserObj uBEx ∧
    (fallbackUserObj uUEx).map Prod.fst ≠ (consolidatedUserObj uBEx).map Prod.fst := by
  refine ⟨rfl, rfl, by decide, by decide⟩

/-- C4 (amended): the five-way fallback (plus summary) is all-or-nothing —
the aggregate succeeds exactly when all six concurrent reads succeed, and
when any one fails no partial dashboard snapshot is returned; on success
the snapshot carries the six fetched collections under the consolidated
endpoint's top-level fields, with a non-negative `totalLoadTime`, but its
user entries are rebuilt with only the six fields `userId`, `username`,
`email`, `fullName`, `role`, `status`, omitting the `lastLogin` and
`joinedAt` fields present in the consolidated payload's user objects. -/
theorem c4_amended_fallback (clock : Nat → Nat) (items : Option (List String))
    (users : Option (List UiUser)) (orders inventory schedules : Option (List String))
    (summary : Option String) :
    ((fetchDashboardAllFallback clock items users orders inventory schedules
        summary).isSome ↔
      (items.isSome ∧ users.isSome ∧ orders.isSome ∧ inventory.isSome ∧
        schedules.isSome ∧ summary.isSome)) ∧
    (∀ it us os inv sch sm, items = some it → users = some us → orders = some os →
        inventory = some inv → schedules = some sch → summary = some sm →
        fetchDashboardAllFallback clock items users orders inventory schedules summary =
          some ⟨it, us.map fallbackUserObj, os, inv, sch, sm, clock 3 - clock 2⟩) ∧
    (∀ d, fetchDashboardAllFallback clock items users orders inventory schedules
          summary = some d →
        0 ≤ d.totalLoadTime ∧
        ∀ u, u ∈ d.users → u.map Prod.fst =
          ["userId", "username", "email", "fullName", "role", "status"]) := by
  refine ⟨?_, ?_, ?_⟩
  · cases items <;> cases users <;> cases orders <;> cases inventory <;>
      cases schedules <;> cases summary <;>
      simp [fetchDashboardAllFallback]
  · intro it us os inv sch sm h1 h2 h3 h4 h5 h6
    subst h1; subst h2; subst h3; subst h4; subst h5; subst h6
    rfl
  · intro d hd
    cases items <;> cases users <;> cases orders <;> cases inventory <;>
      cases schedules <;> cases summary <;>
      simp only [fetchDashboardAllFallback] at hd <;> cases hd
    refine ⟨Nat.zero_le _, ?_⟩
    intro u hu
    simp only [List.mem_map] at hu
    obtain ⟨v, _, hv⟩ := hu
    rw [← hv]
    rfl

/-- C4 (witness): the amended claim applied to one failing read (orders
`none`) — the aggregate fails — and to the all-succeeding run with one
concrete user. -/
theorem c4_witness :
    fetchDashboardAllFallback clockEx (some []) (some [uUEx]) none (some [])
        (some []) (some "s") = none ∧
    fetchDashboardAllFallback clockEx (some []) (some [uUEx]) (some []) (some [])
        (some []) (some "s") =
      some ⟨[], [fallbackUserObj uUEx], [], [], [], "s", 50⟩ := by
  constructor
  · have h := (c4_amended_fallback clockEx (some []) (some [uUEx]) none (some [])
        (some []) (some "s")).1
    cases he : fetchDashboardAllFallback clockEx (some []) (some [uUEx]) none
        (some []) (some []) (some "s") with
    | none => rfl
    | some d =>
        exfalso
        have := h.mp (by rw [he]; exact rfl)
        simp at this
  · have h := (c4_amended_fallback clockEx (some []) (some [uUEx]) (some [])
        (some []) (some []) (some "s")).2.1 [] [uUEx] [] [] [] "s"
        rfl rfl rfl rfl rfl rfl
    exact h.trans (by rfl)

/-- C9 (confirmed): every inventory entry returned by `fetchInventoryData`
carries a status label that is a total function of its numeric quantity —
`quantity ≤ 0` yields '위험', `0 < quantity ≤ 10` yields '부족',
`quantity > 10` yields '정상' — the quantities are relayed unchanged from
the backend entries, and an empty backend payload yields the empty
list. -/
theorem c9_inventory_status (fmt : String → String)
    (backendData : List BackendInventoryResponse) :
    (∀ r, r ∈ fetchInventoryData fmt backendData →
        r.status = inventoryStatus r.quantity) ∧
    ((fetchInventoryData fmt backendData).map (fun r => r.quantity) =
        backendData.map (fun b => b.quantity)) ∧
    (∀ q : Int, (q ≤ 0 → inventoryStatus q = "위험") ∧
        (0 < q → q ≤ 10 → inventoryStatus q = "부족") ∧
        (10 < q → inventoryStatus q = "정상")) ∧
    fetchInventoryData fmt [] = [] := by
  refine ⟨?_, ?_, ?_, rfl⟩
  · intro r hr
    unfold fetchInventoryData at hr
    by_cases he : backendData.isEmpty
    · rw [if_pos he] at hr
      exact absurd hr (List.not_mem_nil r)
    · rw [if_neg he] at hr
      rw [List.mem_map] at hr
      obtain ⟨p, _, hp⟩ := hr
      rw [← hp]
  · unfold fetchInventoryData
    by_cases he : backendData.isEmpty
    · rw [if_pos he, List.isEmpty_iff.mp he]
      rfl
    · rw [if_neg he, List.map_map, show backendData.map (fun b => b.quantity) =
        (backendData.enum.map Prod.snd).map (fun b => b.quantity) by
          rw [List.enum_map_snd]]
      rw [List.map_map]
      rfl
  · intro q
    refine ⟨fun h => by simp [inventoryStatus, h], fun h1 h2 => ?_, fun h => ?_⟩
    · rw [inventoryStatus, if_neg (by omega), if_pos h2]
    · rw [inventoryStatus, if_neg (by omega), if_neg (by omega)]

/-- C9 (witness): the status thresholds applied at the concrete quantities
0, 5 and 11, and at a concrete one-entry backend payload. -/
theorem c9_witness :
    inventoryStatus 0 = "위험" ∧ inventoryStatus 5 = "부족" ∧
    inventoryStatus 11 = "정상" ∧
    (∀ r, r ∈ fetchInventoryData (fun s => s) [⟨3, "n", "A-01", 5, "t"⟩] →
        r.status = inventoryStatus r.quantity) := by
  have h := c9_inventory_status (fun s => s) [⟨3, "n", "A-01", 5, "t"⟩]
  exact ⟨(h.2.2.1 0).1 (by decide), (h.2.2.1 5).2.1 (by decide) (by decide),
    (h.2.2.1 11).2.2 (by decide), h.1⟩

/-- C10 (confirmed): `fetchInOutData` returns exactly the line items of the
orders whose status is `'COMPLETED'`, flattened one record per line item —
a record is in the result iff it is the transform of the `i`-th line item
of some completed order of the input, the result length is the total line
item count over completed orders (so orders with any other status
contribute nothing) — and each record of a completed order has id
`"<orderId>-<itemIndex>"`, status label '완료' and individual code
`"ORDER-<orderId>-<itemId>"`. -/
theorem c10_inout_records (now : String) (allData : List RawOrder) :
    (∀ r, r ∈ fetchInOutData now allData ↔
        ∃ o, o ∈ allData ∧ o.status = "COMPLETED" ∧
          ∃ p, p ∈ o.items.enum ∧ r = toInOutRecord now o p.1 p.2) ∧
    (∀ o i item, o.status = "COMPLETED" →
        (toInOutRecord now o i item).id = toString o.orderId ++ "-" ++ toString i ∧
        (toInOutRecord now o i item).status = "완료" ∧
        (toInOutRecord now o i item).individualCode =
          "ORDER-" ++ toString o.orderId ++ "-" ++ toString item.itemId) ∧
    ((fetchInOutData now allData).length =
        ((allData.filter (fun r => r.status = "COMPLETED")).map
          (fun o => o.items.length)).sum) := by
  refine ⟨?_, ?_, ?_⟩
  · intro r
    constructor
    · intro hr
      rw [fetchInOutData, List.mem_flatMap] at hr
      obtain ⟨o, ho, hr⟩ := hr
      rw [List.mem_filter] at ho
      rw [List.mem_map] at hr
      obtain ⟨p, hp, he⟩ := hr
      exact ⟨o, ho.1, by simpa using ho.2, p, hp, he.symm⟩
    · rintro ⟨o, ho, hs, p, hp, he⟩
      rw [fetchInOutData, List.mem_flatMap]
      exact ⟨o, List.mem_filter.mpr ⟨ho, by simpa using hs⟩,
        List.mem_map.mpr ⟨p, hp, he.symm⟩⟩
  · intro o i item h
    refine ⟨rfl, ?_, rfl⟩
    simp [toInOutRecord, h]
  · rw [fetchInOutData, List.length_flatMap]
    congr 1
    refine List.map_congr_left (fun o _ => ?_)
    show (o.items.enum.map (fun p => toInOutRecord now o p.1 p.2)).length = o.items.length
    rw [List.length_map, List.enum_length]

/-- A completed two-item order used in the concrete C10 run. -/
def oEx : RawOrder :=
  ⟨5, "INBOUND", "COMPLETED", "ACME", "C1", "2024-01-02T09:30:00", "",
    [⟨41, "IC41", "bolt", "M3", 10, none⟩, ⟨42, "IC42", "nut", "M4", 4, none⟩]⟩

/-- C10 (witness): the field facts applied to the second line item of the
concrete completed order: id `"5-1"`, status '완료', individual code
`"ORDER-5-42"`. -/
theorem c10_witness :
    (toInOutRecord "2024-01-01T00:00:00" oEx 1 ⟨42, "IC42", "nut", "M4", 4, none⟩).id
        = "5-1" ∧
    (toInOutRecord "2024-01-01T00:00:00" oEx 1
        ⟨42, "IC42", "nut", "M4", 4, none⟩).status = "완료" ∧
    (toInOutRecord "2024-01-01T00:00:00" oEx 1
        ⟨42, "IC42", "nut", "M4", 4, none⟩).individualCode = "ORDER-5-42" := by
  have h := (c10_inout_records "2024-01-01T00:00:00" [oEx]).2.1 oEx 1
      ⟨42, "IC42", "nut", "M4", 4, none⟩ rfl
  exact ⟨h.1.trans (by decide), h.2.1, h.2.2.trans (by decide)⟩

end WMS
